import Mathlib

/-!
Shallow embedding of the smart-tent periodic control-and-aggregation core:
the runtime duty-cycle tracker (backend/runtime_stats.py), the energy
ledger (backend/devices/tapo_device.py), and the fan/heater/light control
loops and push-notification debouncer (backend/app.py).  Machine integers
are modelled as Int, real-valued clock readings and physical quantities
as Rat.
-/

namespace SmartTent

/-! ### Runtime tracker (backend/runtime_stats.py) -/

/-- MAX_HISTORY_SECONDS = 7 * 24 * 3600 (runtime_stats.py line 8). -/
def MAX_HISTORY_SECONDS : ℤ := 7 * 24 * 3600

/-- State of RuntimeTracker: the chronological sample deque
(timestamp, is_on) plus the all_time accumulator dict. -/
structure RState where
  history : List (ℤ × Bool)
  total_seconds : ℤ
  on_seconds : ℤ
  start_time : ℤ
  deriving DecidableEq

/-- Fresh tracker state (RuntimeTracker.__init__ with no persisted file). -/
def RState.init (start : ℤ) : RState := ⟨[], 0, 0, start⟩

/-- RuntimeTracker.update(is_on) at clock now = int(time.time())
(runtime_stats.py lines 55-90).  The sample is appended first; the
previous sample, if any, is history[-2] after the append, i.e. the last
element of the pre-append history. -/
def update (s : RState) (now : ℤ) (is_on : Bool) : RState :=
  let history := s.history ++ [(now, is_on)]
  match s.history.getLast? with
  | none => { s with history := history }
  | some (prev_time, prev_state) =>
    let delta := now - prev_time
    let delta := if delta > 300 then 0 else delta
    if delta > 0 then
      { s with history := history,
               total_seconds := s.total_seconds + delta,
               on_seconds := if prev_state then s.on_seconds + delta
                             else s.on_seconds }
    else
      { s with history := history }

/-- RuntimeTracker.prune (runtime_stats.py lines 46-53): pop from the left
while the head sample is strictly older than cutoff = now - MAX_HISTORY_SECONDS;
the clock now = time.time() is real-valued, modelled as a rational. -/
def pruneHistory (l : List (ℤ × Bool)) (cutoff : ℚ) : List (ℤ × Bool) :=
  match l with
  | [] => []
  | (t, b) :: rest =>
    if (t : ℚ) < cutoff then pruneHistory rest cutoff else (t, b) :: rest

/-- RuntimeTracker.save (runtime_stats.py lines 33-44): prune with the
save-time clock, then serialize (the file write itself carries no state). -/
def save (s : RState) (now : ℚ) : RState :=
  { s with history := pruneHistory s.history (now - (MAX_HISTORY_SECONDS : ℚ)) }

/-- One update call preserves the all-time invariant. -/
theorem update_preserves_invariant (s : RState) (now : ℤ) (b : Bool)
    (h : s.on_seconds ≤ s.total_seconds) :
    (update s now b).on_seconds ≤ (update s now b).total_seconds := by
  unfold update
  cases hl : s.history.getLast? with
  | none => simpa using h
  | some p =>
    obtain ⟨pt, ps⟩ := p
    simp only
    split_ifs <;> simp_all <;> omega

/-- Claim C2: starting from any state with on_seconds ≤ total_seconds (the fresh
state has both 0), every sequence of update calls with monotonically
increasing sample timestamps keeps all_time.on_seconds ≤
all_time.total_seconds after every call (the proof does not even need the
monotonicity hypothesis). -/
theorem runtime_all_time_invariant (init : RState) (calls : List (ℤ × Bool))
    (hinv : init.on_seconds ≤ init.total_seconds)
    (hmono : List.Chain' (fun a b => a.1 ≤ b.1) calls) :
    (calls.foldl (fun s c => update s c.1 c.2) init).on_seconds ≤
      (calls.foldl (fun s c => update s c.1 c.2) init).total_seconds := by
  induction calls generalizing init with
  | nil => simpa using hinv
  | cons c t ih =>
    exact ih (update init c.1 c.2)
      (update_preserves_invariant init c.1 c.2 hinv) hmono.tail

/-- Witness for C2 at a concrete input. -/
theorem runtime_all_time_invariant_witness :
    (RState.init 0).on_seconds ≤ (RState.init 0).total_seconds ∧
    List.Chain' (fun (a b : ℤ × Bool) => a.1 ≤ b.1)
      [((5 : ℤ), true), ((10 : ℤ), false), ((400 : ℤ), true)] ∧
    (([((5 : ℤ), true), ((10 : ℤ), false), ((400 : ℤ), true)]).foldl
        (fun s c => update s c.1 c.2) (RState.init 0)).on_seconds ≤
      (([((5 : ℤ), true), ((10 : ℤ), false), ((400 : ℤ), true)]).foldl
        (fun s c => update s c.1 c.2) (RState.init 0)).total_seconds :=
  ⟨by decide, by simp [List.chain'_cons],
    runtime_all_time_invariant (RState.init 0)
      [((5 : ℤ), true), ((10 : ℤ), false), ((400 : ℤ), true)]
      (by decide) (by simp [List.chain'_cons])⟩

/-- Claim C3: in update, with a previous sample at time pt with flag ps and
delta = now - pt: if delta > 300 (or delta ≤ 0) neither counter changes;
if 0 < delta ≤ 300 then total_seconds grows by exactly delta and
on_seconds grows by exactly delta iff ps is true; on the very first sample
(no previous sample) neither counter changes. -/
theorem update_delta_accounting (s : RState) (now : ℤ) (b : Bool) :
    ((update s now b).total_seconds, (update s now b).on_seconds) =
      match s.history.getLast? with
      | none => (s.total_seconds, s.on_seconds)
      | some (pt, ps) =>
        if 0 < now - pt ∧ now - pt ≤ 300 then
          (s.total_seconds + (now - pt),
            if ps then s.on_seconds + (now - pt) else s.on_seconds)
        else (s.total_seconds, s.on_seconds) := by
  unfold update
  cases hl : s.history.getLast? with
  | none => simp
  | some p =>
    obtain ⟨pt, ps⟩ := p
    simp only
    split_ifs <;> simp_all <;> omega

/-- pruneHistory on a chronologically sorted list removes exactly the
samples strictly older than the cutoff. -/
theorem pruneHistory_eq_filter (l : List (ℤ × Bool)) (c : ℚ)
    (h : l.Pairwise (fun a b => a.1 ≤ b.1)) :
    pruneHistory l c = l.filter (fun p => decide (c ≤ (p.1 : ℚ))) := by
  induction l with
  | nil => rfl
  | cons hd tl ih =>
    obtain ⟨t, b⟩ := hd
    rw [pruneHistory]
    by_cases hc : (t : ℚ) < c
    · rw [if_pos hc, ih (List.Pairwise.of_cons h)]
      have : ¬ (c ≤ (t : ℚ)) := not_le.mpr hc
      simp [List.filter, this]
    · rw [if_neg hc]
      have hct : c ≤ (t : ℚ) := not_lt.mp hc
      have hall : ∀ x ∈ tl, c ≤ ((x.1 : ℤ) : ℚ) := by
        intro x hx
        have : t ≤ x.1 := (List.pairwise_cons.mp h).1 x hx
        exact le_trans hct (by exact_mod_cast this)
      have : tl.filter (fun p => decide (c ≤ (p.1 : ℚ))) = tl :=
        List.filter_eq_self.mpr (fun x hx => by simpa using hall x hx)
      simp [List.filter, hct, this]

/-- Claim C4: given a chronologically ordered sample sequence, save prunes
exactly the samples whose timestamp is strictly older than
MAX_HISTORY_SECONDS = 7*24*3600 seconds before the save-time clock
(every strictly-older sample removed, none still within the window
removed) and leaves the all_time accumulator untouched. -/
theorem prune_exact_window (s : RState) (now : ℚ)
    (hsorted : s.history.Pairwise (fun a b => a.1 ≤ b.1)) :
    (save s now).history =
        s.history.filter
          (fun p => decide (now - (MAX_HISTORY_SECONDS : ℚ) ≤ (p.1 : ℚ))) ∧
    (save s now).total_seconds = s.total_seconds ∧
    (save s now).on_seconds = s.on_seconds ∧
    (save s now).start_time = s.start_time :=
  ⟨pruneHistory_eq_filter s.history (now - (MAX_HISTORY_SECONDS : ℚ)) hsorted,
    rfl, rfl, rfl⟩

/-- Witness for C4 at a concrete input: one sample just outside the 7-day
window is dropped, one just inside is kept, the accumulator is unchanged. -/
theorem prune_exact_window_witness :
    (⟨[((0 : ℤ), true), ((700000 : ℤ), false)], 9, 4, 0⟩ : RState).history.Pairwise
        (fun a b => a.1 ≤ b.1) ∧
    (save ⟨[((0 : ℤ), true), ((700000 : ℤ), false)], 9, 4, 0⟩ 1000000).history =
        ([((0 : ℤ), true), ((700000 : ℤ), false)]).filter
          (fun p => decide ((1000000 : ℚ) - (MAX_HISTORY_SECONDS : ℚ) ≤ (p.1 : ℚ))) ∧
    (save ⟨[((0 : ℤ), true), ((700000 : ℤ), false)], 9, 4, 0⟩ 1000000).total_seconds = 9 ∧
    (save ⟨[((0 : ℤ), true), ((700000 : ℤ), false)], 9, 4, 0⟩ 1000000).on_seconds = 4 ∧
    (save ⟨[((0 : ℤ), true), ((700000 : ℤ), false)], 9, 4, 0⟩ 1000000).start_time = 0 :=
  ⟨by decide,
    (prune_exact_window ⟨[((0 : ℤ), true), ((700000 : ℤ), false)], 9, 4, 0⟩
      1000000 (by decide)).1,
    (prune_exact_window ⟨[((0 : ℤ), true), ((700000 : ℤ), false)], 9, 4, 0⟩
      1000000 (by decide)).2.1,
    (prune_exact_window ⟨[((0 : ℤ), true), ((700000 : ℤ), false)], 9, 4, 0⟩
      1000000 (by decide)).2.2.1,
    (prune_exact_window ⟨[((0 : ℤ), true), ((700000 : ℤ), false)], 9, 4, 0⟩
      1000000 (by decide)).2.2.2⟩

/-! ### Energy ledger (backend/devices/tapo_device.py) -/

/-- Floor of a rational as an integer, written with Int.fdiv so that the
kernel can evaluate it. -/
def ratFloor (q : ℚ) : ℤ := Int.fdiv q.num q.den

/-- Python round-half-to-even on an exact rational, to the nearest integer. -/
def pyRoundHalfEven (q : ℚ) : ℤ :=
  let f := ratFloor q
  let r := q - f
  if r < 1 / 2 then f
  else if 1 / 2 < r then f + 1
  else if f % 2 = 0 then f else f + 1

/-- Python round(x, n) (ties-to-even), modelled on exact rationals. -/
def pyRound (q : ℚ) (n : ℕ) : ℚ := (pyRoundHalfEven (q * 10 ^ n) : ℚ) / 10 ^ n

/-- Value stored in all_history under a date key: the kwh/cost dict. -/
structure ERec where
  kwh : ℚ
  cost : ℚ
  deriving DecidableEq

/-- One fetched daily-history entry (dicts with date, kwh, cost built by
TapoDevice.get_daily_history). -/
structure HEntry where
  date : String
  kwh : ℚ
  cost : ℚ
  deriving DecidableEq

/-- The all_history map, date string to record. -/
abbrev Ledger : Type := String → Option ERec

/-- TapoDevice.record_daily (tapo_device.py lines 68-74): unconditionally
store the rounded kwh and cost under the date key. -/
def record_daily (m : Ledger) (date_str : String) (kwh kwh_price : ℚ) : Ledger :=
  fun k => if k = date_str then
    some ⟨pyRound kwh 3, pyRound (kwh * kwh_price) 2⟩
  else m k

/-- TapoDevice.save_history (tapo_device.py lines 53-66): merge every entry
into all_history by date, overwriting whatever was there. -/
def save_history (m : Ledger) (history : List HEntry) : Ledger :=
  history.foldl
    (fun acc e => fun k => if k = e.date then some ⟨e.kwh, e.cost⟩ else acc k) m

/-- The caller-side backfill loop in TapoDevice.get_status (tapo_device.py
lines 216-221): insert an entry only when its date key is absent from the
evolving map. -/
def backfillAbsent (m : Ledger) (api_history : List HEntry) : Ledger :=
  api_history.foldl
    (fun acc e =>
      if (acc e.date).isSome then acc
      else fun k => if k = e.date then some ⟨e.kwh, e.cost⟩ else acc k) m

/-- The complete daily backfill pass of TapoDevice.get_status (lines
212-224): get_daily_history fetches the entries and, when the list is
non-empty, already merges them via save_history (tapo_device.py lines
348-349); only then does the caller run its insert-if-absent loop. -/
def backfillPass (m : Ledger) (api_history : List HEntry) : Ledger :=
  let m1 := if api_history.isEmpty then m else save_history m api_history
  backfillAbsent m1 api_history

/-- Last fetched entry carrying a given date key, if any. -/
def lastEntryFor (history : List HEntry) (k : String) : Option HEntry :=
  history.foldl (fun acc e => if k = e.date then some e else acc) none

/-- First-some choice on options, used to state last-wins fold lemmas. -/
def orDefault (a b : Option HEntry) : Option HEntry :=
  match a with
  | some x => some x
  | none => b

theorem lastEntryFor_foldl_shift (t : List HEntry) (k : String) (a : Option HEntry) :
    t.foldl (fun acc e => if k = e.date then some e else acc) a =
      orDefault (lastEntryFor t k) a := by
  induction t generalizing a with
  | nil => simp [lastEntryFor, orDefault]
  | cons e t ih =>
    simp only [lastEntryFor, List.foldl_cons]
    by_cases h : k = e.date
    · rw [if_pos h, if_pos h, ih (some e)]
      cases lastEntryFor t k <;> simp [orDefault]
    · rw [if_neg h, if_neg h, ih a, ih none]
      cases lastEntryFor t k <;> simp [orDefault]

theorem lastEntryFor_cons (e : HEntry) (t : List HEntry) (k : String) :
    lastEntryFor (e :: t) k =
      orDefault (lastEntryFor t k) (if k = e.date then some e else none) := by
  simp only [lastEntryFor, List.foldl_cons]
  exact lastEntryFor_foldl_shift t k _

theorem lastEntryFor_isSome_of_mem (history : List HEntry) (e : HEntry)
    (h : e ∈ history) : (lastEntryFor history e.date).isSome := by
  induction history with
  | nil => cases h
  | cons a t ih =>
    rw [lastEntryFor_cons]
    rcases List.mem_cons.mp h with h1 | h2
    · subst h1
      cases lastEntryFor t e.date <;> simp [orDefault]
    · have := ih h2
      cases hl : lastEntryFor t e.date <;> simp_all [orDefault]

theorem save_history_apply (history : List HEntry) (m : Ledger) (k : String) :
    save_history m history k =
      match lastEntryFor history k with
      | some e => some ⟨e.kwh, e.cost⟩
      | none => m k := by
  induction history generalizing m with
  | nil => simp [save_history, lastEntryFor]
  | cons e t ih =>
    show save_history
        (fun k2 => if k2 = e.date then some ⟨e.kwh, e.cost⟩ else m k2) t k = _
    rw [ih, lastEntryFor_cons]
    cases hl : lastEntryFor t k with
    | some x => simp [orDefault]
    | none =>
      by_cases hd : k = e.date
      · simp [orDefault, hd]
      · simp [orDefault, hd]

theorem backfillAbsent_of_all_present (history : List HEntry) (m : Ledger)
    (h : ∀ e ∈ history, (m e.date).isSome) :
    backfillAbsent m history = m := by
  induction history with
  | nil => rfl
  | cons e t ih =>
    show (e :: t).foldl _ m = m
    rw [List.foldl_cons, if_pos (h e (List.mem_cons_self e t))]
    exact ih (fun e2 h2 => h e2 (List.mem_cons_of_mem e h2))

/-- Claim C1 counterexample: a date key already present in all_history (stored
record kwh 5, cost 5) is altered by a backfill pass whose fetched history
carries a different value for that date, because get_daily_history already
merges every fetched entry through save_history before the caller's
insert-only-if-absent check runs. -/
theorem backfill_overwrites_existing_entry_cex :
    save_history (fun _ => none) [⟨"2025-06-01", 5, 5⟩] "2025-06-01" =
        some ⟨5, 5⟩ ∧
    backfillPass (save_history (fun _ => none) [⟨"2025-06-01", 5, 5⟩])
        [⟨"2025-06-01", 2, 2⟩] "2025-06-01" = some ⟨2, 2⟩ ∧
    (⟨2, 2⟩ : ERec) ≠ ⟨5, 5⟩ := by
  refine ⟨by decide, by decide, by decide⟩

/-- Claim C1 (amended): record_daily called twice for the same date key stores
the second value (live overwrite wins); but the daily backfill pass does
not leave present keys alone: for every key carried by the fetched
history the last fetched entry for that key overwrites the stored record
(present or not), and only keys absent from the fetched history keep
their previous value. -/
theorem record_daily_and_backfill_semantics :
    (∀ (m : Ledger) (d : String) (k1 k2 p : ℚ),
      record_daily (record_daily m d k1 p) d k2 p d =
        some ⟨pyRound k2 3, pyRound (k2 * p) 2⟩) ∧
    (∀ (m : Ledger) (api_history : List HEntry) (k : String),
      backfillPass m api_history k =
        match lastEntryFor api_history k with
        | some e => some ⟨e.kwh, e.cost⟩
        | none => m k) := by
  constructor
  · intro m d k1 k2 p
    simp [record_daily]
  · intro m api_history k
    by_cases hh : api_history.isEmpty
    · rw [List.isEmpty_iff.mp hh]
      simp [backfillPass, backfillAbsent, lastEntryFor]
    · have hpass : backfillPass m api_history =
          backfillAbsent (save_history m api_history) api_history := by
        simp [backfillPass, hh]
      rw [hpass, backfillAbsent_of_all_present _ _ ?_, save_history_apply]
      intro e he
      rw [save_history_apply]
      cases hl : lastEntryFor api_history e.date with
      | some x => simp
      | none =>
        have := lastEntryFor_isSome_of_mem api_history e he
        rw [hl] at this
        simp at this

/-! ### Fan override state machine (backend/app.py, check_fan_control) -/

/-- The humidity-override update of check_fan_control (app.py lines
268-292): with the dreo snapshot available and both readings present,
enter override when current_humidity >= target_humidity + on_threshold
and leave it when current_humidity < target_humidity + off_threshold;
otherwise the flag holds. -/
def fanOverrideStep (active : Bool) (dreoAvail : Bool)
    (current_humidity target_humidity : Option ℚ)
    (on_threshold off_threshold : ℚ) : Bool :=
  match dreoAvail, current_humidity, target_humidity with
  | true, some c, some t =>
    if active then
      if c < t + off_threshold then false else active
    else
      if c ≥ t + on_threshold then true else active
  | _, _, _ => active

/-- Claim C5: the override flag turns on from NORMAL exactly when
current >= target + on_threshold, turns off from OVERRIDE exactly when
current < target + off_threshold, holds whenever the dreo snapshot or a
reading is missing; with target 50, on 10, off 5 it activates at humidity
60 and not 59, and clears at 54 but not at 55. -/
theorem fan_override_transitions :
    (∀ (c t onT offT : ℚ),
      (fanOverrideStep false true (some c) (some t) onT offT = true ↔
        c ≥ t + onT) ∧
      (fanOverrideStep true true (some c) (some t) onT offT = false ↔
        c < t + offT)) ∧
    (∀ (a : Bool) (c t : Option ℚ) (onT offT : ℚ),
      fanOverrideStep a false c t onT offT = a) ∧
    (∀ (a avail : Bool) (t : Option ℚ) (onT offT : ℚ),
      fanOverrideStep a avail none t onT offT = a) ∧
    (∀ (a avail : Bool) (c : Option ℚ) (onT offT : ℚ),
      fanOverrideStep a avail c none onT offT = a) ∧
    fanOverrideStep false true (some 60) (some 50) 10 5 = true ∧
    fanOverrideStep false true (some 59) (some 50) 10 5 = false ∧
    fanOverrideStep true true (some 55) (some 50) 10 5 = true ∧
    fanOverrideStep true true (some 54) (some 50) 10 5 = false := by
  refine ⟨?_, ?_, ?_, ?_, ?_, ?_, ?_, ?_⟩
  · intro c t onT offT
    constructor
    · simp [fanOverrideStep]
    · simp [fanOverrideStep]
  · intro a c t onT offT
    cases c <;> cases t <;> rfl
  · intro a avail t onT offT
    cases avail <;> cases t <;> rfl
  · intro a avail c onT offT
    cases avail <;> cases c <;> rfl
  · norm_num [fanOverrideStep]
  · norm_num [fanOverrideStep]
  · norm_num [fanOverrideStep]
  · norm_num [fanOverrideStep]

/-! ### Control loops (backend/app.py) -/

/-- HEATER_CHECK_INTERVAL = 5 * 60 (app.py line 54). -/
def HEATER_CHECK_INTERVAL : ℚ := 5 * 60

/-- Actuation commands a loop can issue to the heater socket. -/
inductive HeaterCmd
  | turnOn
  | turnOff
  deriving DecidableEq

/-- Actuation commands the schedule loop can issue to the grow light. -/
inductive LightCmd
  | turnOn
  | turnOff
  deriving DecidableEq

/-- One temperature probe as reported in the temp snapshot. -/
structure Sensor where
  address : String
  valid : Bool
  temp_c : ℚ
  deriving DecidableEq

/-- Mean of the currently valid sensor readings (app.py lines 427-431),
none when no valid reading exists. -/
def avgValidTemps (sensors : List Sensor) : Option ℚ :=
  let valid_temps := (sensors.filter (fun s => s.valid)).map (fun s => s.temp_c)
  if valid_temps.isEmpty then none
  else some (valid_temps.sum / (valid_temps.length : ℚ))

/-- Temperature source selection of check_heater_control (app.py lines
413-431): a configured non-empty sensor address other than the word
average selects that sensor when present and valid (otherwise the
evaluation is skipped); any other configuration averages the valid
sensors. -/
def heaterAvgTemp (sensor_address : Option String) (sensors : List Sensor) :
    Option ℚ :=
  match sensor_address with
  | some a =>
    if a ≠ "" ∧ a ≠ "average" then
      match sensors.find? (fun s => s.address == a) with
      | some s => if s.valid then some s.temp_c else none
      | none => none
    else avgValidTemps sensors
  | none => avgValidTemps sensors

/-- check_heater_control (app.py lines 379-446).  Inputs: the heater
settings (enabled, night_temp, sensor_address), the clock and the stored
last_heater_check_time, the wiz and temp and heater snapshots.  Output:
the new last_heater_check_time and the command issued, if any. -/
def check_heater_control (enabled : Bool) (night_temp : ℚ)
    (sensor_address : Option String) (now last_heater_check_time : ℚ)
    (wizAvail wizOn tempAvail : Bool) (sensors : List Sensor)
    (heaterAvail heaterOn : Bool) : ℚ × Option HeaterCmd :=
  if ¬ enabled then (last_heater_check_time, none)
  else if now - last_heater_check_time < HEATER_CHECK_INTERVAL then
    (last_heater_check_time, none)
  else if wizAvail && wizOn then
    (now, if heaterAvail && !heaterOn then some HeaterCmd.turnOn else none)
  else if ¬ tempAvail then (now, none)
  else
    match heaterAvgTemp sensor_address sensors with
    | none => (now, none)
    | some avg_temp =>
      if avg_temp < night_temp - 1 / 2 then
        (now, if !(heaterAvail && heaterOn) then some HeaterCmd.turnOn else none)
      else if avg_temp > night_temp + 1 / 2 then
        (now, if heaterAvail && heaterOn then some HeaterCmd.turnOff else none)
      else (now, none)

/-- check_light_schedule (app.py lines 449-492) with the two schedule
times and the wall clock already parsed to minutes-of-day.  Output: the
command issued to the grow-light socket, if any. -/
def check_light_schedule (enabled : Bool)
    (on_minutes off_minutes now_minutes : ℤ) (wizAvail wizOn : Bool) :
    Option LightCmd :=
  if ¬ enabled then none
  else
    let should_be_on : Bool :=
      if on_minutes < off_minutes then
        decide (on_minutes ≤ now_minutes ∧ now_minutes < off_minutes)
      else
        decide (now_minutes ≥ on_minutes ∨ now_minutes < off_minutes)
    if ¬ wizAvail then none
    else if should_be_on && !wizOn then some LightCmd.turnOn
    else if !should_be_on && wizOn then some LightCmd.turnOff
    else none

/-- check_fan_control (app.py lines 250-321).  Output: the new
humidity_override_active flag and the set_speed command issued, if any. -/
def check_fan_control (fanAvail : Bool) (current_speed : Option ℤ)
    (dreoAvail : Bool) (current_humidity target_humidity : Option ℚ)
    (on_threshold off_threshold : ℚ) (wizAvail wizOn : Bool)
    (day_speed night_speed : ℤ) (override_active : Bool) : Bool × Option ℤ :=
  if ¬ fanAvail then (override_active, none)
  else
    let ovr := fanOverrideStep override_active dreoAvail current_humidity
      target_humidity on_threshold off_threshold
    let target_speed : ℤ :=
      if ovr then 100
      else if wizAvail && wizOn then day_speed else night_speed
    match current_speed with
    | none => (ovr, none)
    | some c => (ovr, if c ≠ target_speed then some target_speed else none)

/-- Claim C6 counterexample: with the heater enabled, the throttle window
elapsed, lights off (night), the temperature snapshot available with one
valid sensor at 19 degrees and target 20, the heater loop issues turn_on
even though the heater snapshot itself reports available = false (next to
last argument), because the night-mode guard is the negation of available
and is_on. -/
theorem heater_unavailable_turn_on_cex :
    (check_heater_control true 20 none 1000 0 false false true
        [⟨"s1", true, 19⟩] false false).2 = some HeaterCmd.turnOn := by
  norm_num [check_heater_control, heaterAvgTemp, avgValidTemps,
    HEATER_CHECK_INTERVAL]

/-- Claim C6 (amended): the fan loop issues no command and keeps its state when
the fan snapshot is unavailable, the light loop issues no command when
the light snapshot is unavailable, and with the heater snapshot
unavailable the heater loop never issues turn_off and issues nothing in
day mode, but in night mode it does issue turn_on whenever the
temperature reading is below target - 0.5, since the heater is then not
known to be on. -/
theorem unavailable_devices_skip_amended :
    (∀ (cs : Option ℤ) (da : Bool) (ch th : Option ℚ) (onT offT : ℚ)
        (wa wo : Bool) (ds ns : ℤ) (ov : Bool),
      check_fan_control false cs da ch th onT offT wa wo ds ns ov =
        (ov, none)) ∧
    (∀ (en : Bool) (onM offM nowM : ℤ) (wo : Bool),
      check_light_schedule en onM offM nowM false wo = none) ∧
    (∀ (en : Bool) (nt : ℚ) (sa : Option String) (now last : ℚ)
        (wa wo ta : Bool) (ss : List Sensor) (ho : Bool),
      (check_heater_control en nt sa now last wa wo ta ss false ho).2 = none ∨
      (check_heater_control en nt sa now last wa wo ta ss false ho).2 =
        some HeaterCmd.turnOn) ∧
    (∀ (en : Bool) (nt : ℚ) (sa : Option String) (now last : ℚ) (ta : Bool)
        (ss : List Sensor) (ho : Bool),
      (check_heater_control en nt sa now last true true ta ss false ho).2 =
        none) ∧
    (∀ (nt : ℚ) (sa : Option String) (now last : ℚ) (wa wo : Bool)
        (ss : List Sensor) (ho : Bool) (r : ℚ),
      (wa && wo) = false → ¬ now - last < HEATER_CHECK_INTERVAL →
      heaterAvgTemp sa ss = some r → r < nt - 1 / 2 →
        (check_heater_control true nt sa now last wa wo true ss false ho).2 =
          some HeaterCmd.turnOn) := by
  refine ⟨?_, ?_, ?_, ?_, ?_⟩
  · intro cs da ch th onT offT wa wo ds ns ov
    simp [check_fan_control]
  · intro en onM offM nowM wo
    simp [check_light_schedule]
  · intro en nt sa now last wa wo ta ss ho
    cases hat : heaterAvgTemp sa ss with
    | none =>
      simp only [check_heater_control, hat]
      split_ifs <;> simp
    | some r =>
      simp only [check_heater_control, hat]
      split_ifs <;> simp_all
  · intro en nt sa now last ta ss ho
    simp only [check_heater_control]
    split_ifs <;> simp_all
  · intro nt sa now last wa wo ss ho r hday hthr hread hlow
    have hlow2 : r < nt - 2⁻¹ := by rwa [one_div] at hlow
    simp only [check_heater_control]
    rw [if_neg (by simp), if_neg hthr, if_neg (by simp [hday]),
      if_neg (by simp), hread]
    simp [hlow2]

/-- Witness for C6 (amended), discharging the night-mode hypotheses of the
last conjunct at a concrete input. -/
theorem unavailable_devices_skip_amended_witness :
    ((false && false : Bool) = false) ∧
    (¬ (1000 : ℚ) - 0 < HEATER_CHECK_INTERVAL) ∧
    heaterAvgTemp (some "s1") [⟨"s1", true, 19⟩] = some 19 ∧
    ((19 : ℚ) < 20 - 1 / 2) ∧
    (check_heater_control true 20 (some "s1") 1000 0 false false true
        [⟨"s1", true, 19⟩] false true).2 = some HeaterCmd.turnOn :=
  ⟨by decide, by norm_num [HEATER_CHECK_INTERVAL],
    by simp [heaterAvgTemp], by norm_num,
    unavailable_devices_skip_amended.2.2.2.2 20 (some "s1") 1000 0 false false
      [⟨"s1", true, 19⟩] true 19 (by decide)
      (by norm_num [HEATER_CHECK_INTERVAL]) (by simp [heaterAvgTemp])
      (by norm_num)⟩

/-- Claim C9: during night, with the throttle window elapsed, the heater
snapshot available and a valid temperature reading r, the loop issues
turn_on iff r < target - 0.5 and the heater is off, turn_off iff
r > target + 0.5 and the heater is on, and nothing when r lies within
[target - 0.5, target + 0.5]. -/
theorem heater_deadband (nt : ℚ) (sa : Option String) (now last : ℚ)
    (wa wo : Bool) (ss : List Sensor) (ho : Bool) (r : ℚ)
    (hthr : ¬ now - last < HEATER_CHECK_INTERVAL)
    (hnight : (wa && wo) = false)
    (hread : heaterAvgTemp sa ss = some r) :
    ((check_heater_control true nt sa now last wa wo true ss true ho).2 =
        some HeaterCmd.turnOn ↔ r < nt - 1 / 2 ∧ ho = false) ∧
    ((check_heater_control true nt sa now last wa wo true ss true ho).2 =
        some HeaterCmd.turnOff ↔ nt + 1 / 2 < r ∧ ho = true) ∧
    (nt - 1 / 2 ≤ r → r ≤ nt + 1 / 2 →
      (check_heater_control true nt sa now last wa wo true ss true ho).2 =
        none) := by
  have hE : (check_heater_control true nt sa now last wa wo true ss true ho).2 =
      (if r < nt - 1 / 2 then
        (if !((true : Bool) && ho) then some HeaterCmd.turnOn else none)
      else if r > nt + 1 / 2 then
        (if (true : Bool) && ho then some HeaterCmd.turnOff else none)
      else none) := by
    simp only [check_heater_control]
    rw [if_neg (by simp), if_neg hthr, if_neg (by simp [hnight]),
      if_neg (by simp), hread]
    dsimp only
    split_ifs <;> rfl
  refine ⟨?_, ?_, ?_⟩
  · rw [hE]
    cases ho <;> split_ifs with h1 h2 <;> simp_all
  · rw [hE]
    cases ho <;> split_ifs with h1 h2 <;> simp_all <;> linarith
  · intro hb1 hb2
    rw [hE, if_neg (not_lt.mpr hb1), if_neg (not_lt.mpr hb2)]

/-- Witness for C9 with target 20: reading 19.4 turns the heater on,
19.6 causes no action, 20.6 turns it off. -/
theorem heater_deadband_witness :
    (¬ (1000 : ℚ) - 0 < HEATER_CHECK_INTERVAL) ∧
    ((false && false : Bool) = false) ∧
    heaterAvgTemp (some "s1") [⟨"s1", true, (19.4 : ℚ)⟩] = some 19.4 ∧
    (check_heater_control true 20 (some "s1") 1000 0 false false true
        [⟨"s1", true, (19.4 : ℚ)⟩] true false).2 = some HeaterCmd.turnOn ∧
    (check_heater_control true 20 (some "s1") 1000 0 false false true
        [⟨"s1", true, (19.6 : ℚ)⟩] true false).2 = none ∧
    (check_heater_control true 20 (some "s1") 1000 0 false false true
        [⟨"s1", true, (20.6 : ℚ)⟩] true true).2 = some HeaterCmd.turnOff :=
  ⟨by norm_num [HEATER_CHECK_INTERVAL], by decide, by simp [heaterAvgTemp],
    (heater_deadband 20 (some "s1") 1000 0 false false
      [⟨"s1", true, (19.4 : ℚ)⟩] false (19.4 : ℚ)
      (by norm_num [HEATER_CHECK_INTERVAL]) (by decide)
      (by simp [heaterAvgTemp])).1.mpr ⟨by norm_num, rfl⟩,
    (heater_deadband 20 (some "s1") 1000 0 false false
      [⟨"s1", true, (19.6 : ℚ)⟩] false (19.6 : ℚ)
      (by norm_num [HEATER_CHECK_INTERVAL]) (by decide)
      (by simp [heaterAvgTemp])).2.2 (by norm_num) (by norm_num),
    (heater_deadband 20 (some "s1") 1000 0 false false
      [⟨"s1", true, (20.6 : ℚ)⟩] true (20.6 : ℚ)
      (by norm_num [HEATER_CHECK_INTERVAL]) (by decide)
      (by simp [heaterAvgTemp])).2.1.mpr ⟨by norm_num, rfl⟩⟩

/-- Claim C10: once an enabled heater check passes the 5-minute throttle, the
stored last_heater_check_time becomes the current clock before any
temperature evaluation, so every call in the following
HEATER_CHECK_INTERVAL window returns immediately with no command and no
state change, whatever the snapshots then report. -/
theorem heater_throttle_lockout (nt : ℚ) (sa : Option String)
    (now last : ℚ) (wa wo ta : Bool) (ss : List Sensor) (ha ho : Bool)
    (hpass : ¬ now - last < HEATER_CHECK_INTERVAL) :
    (check_heater_control true nt sa now last wa wo ta ss ha ho).1 = now ∧
    ∀ (en2 : Bool) (nt2 : ℚ) (sa2 : Option String) (now2 : ℚ)
        (wa2 wo2 ta2 : Bool) (ss2 : List Sensor) (ha2 ho2 : Bool),
      now2 - now < HEATER_CHECK_INTERVAL →
        check_heater_control en2 nt2 sa2 now2 now wa2 wo2 ta2 ss2 ha2 ho2 =
          (now, none) := by
  constructor
  · cases hat : heaterAvgTemp sa ss with
    | none =>
      simp only [check_heater_control, hat]
      rw [if_neg (by simp), if_neg hpass]
      split_ifs <;> rfl
    | some r =>
      simp only [check_heater_control, hat]
      rw [if_neg (by simp), if_neg hpass]
      split_ifs <;> rfl
  · intro en2 nt2 sa2 now2 wa2 wo2 ta2 ss2 ha2 ho2 h2
    cases en2 with
    | false => simp [check_heater_control]
    | true => simp [check_heater_control, h2]

/-- Witness for C10 at concrete clocks 1000 and then 1100. -/
theorem heater_throttle_lockout_witness :
    (¬ (1000 : ℚ) - 0 < HEATER_CHECK_INTERVAL) ∧
    ((1100 : ℚ) - 1000 < HEATER_CHECK_INTERVAL) ∧
    (check_heater_control true 20 none 1000 0 false false false [] true
        false).1 = 1000 ∧
    check_heater_control true 20 none 1100 1000 true true true
        [⟨"s1", true, 5⟩] true false = (1000, none) :=
  ⟨by norm_num [HEATER_CHECK_INTERVAL], by norm_num [HEATER_CHECK_INTERVAL],
    (heater_throttle_lockout 20 none 1000 0 false false false [] true false
      (by norm_num [HEATER_CHECK_INTERVAL])).1,
    (heater_throttle_lockout 20 none 1000 0 false false false [] true false
      (by norm_num [HEATER_CHECK_INTERVAL])).2 true 20 none 1100 true true
      true [⟨"s1", true, 5⟩] true false
      (by norm_num [HEATER_CHECK_INTERVAL])⟩

/-! ### Notification debouncer (backend/app.py, check_push_notifications) -/

/-- POWER_THRESHOLD = 200 watts (app.py line 46). -/
def POWER_THRESHOLD : ℚ := 200

/-- The wiz on/off state-edge rule (app.py lines 198-208): when the wiz
snapshot is available, notify iff a last observed value exists and the
current observed value differs from it, and store the current value;
when it is unavailable nothing runs.  Returns the new last_wiz_state and
whether a notification is sent. -/
def wizNotifyStep (last_wiz_state : Option Bool) (wizAvail : Bool)
    (current_state : Option Bool) : Option Bool × Bool :=
  if wizAvail then
    (current_state,
      last_wiz_state.isSome && decide (current_state ≠ last_wiz_state))
  else (last_wiz_state, false)

/-- The power threshold-edge rule (app.py lines 210-219): when the tapo
snapshot is available, compute is_above = power > POWER_THRESHOLD, notify
iff is_above and the stored flag was false, and store is_above.  Returns
the new last_power_above_threshold and whether a notification is sent. -/
def powerNotifyStep (last_power_above_threshold : Bool) (tapoAvail : Bool)
    (power : ℚ) : Bool × Bool :=
  if tapoAvail then
    (decide (power > POWER_THRESHOLD),
      decide (power > POWER_THRESHOLD) && !last_power_above_threshold)
  else (last_power_above_threshold, false)

/-- Notification outputs of the power rule over a sequence of ticks whose
readings are all available, threading last_power_above_threshold. -/
def powerRun (last : Bool) : List ℚ → List Bool
  | [] => []
  | p :: rest =>
    (powerNotifyStep last true p).2 :: powerRun (powerNotifyStep last true p).1 rest

/-- Claim C7 counterexample: on a tick where the wiz snapshot is unavailable and
the current observed value (true) differs from the stored one (false),
the stored last-observed value is not updated to the current value, so
the update does not happen regardless of availability. -/
theorem wiz_last_state_not_updated_cex :
    (wizNotifyStep (some false) false (some true)).1 = some false ∧
    (wizNotifyStep (some false) false (some true)).1 ≠ some true ∧
    (wizNotifyStep (some false) false (some true)).2 = false := by
  refine ⟨by decide, by decide, by decide⟩

/-- Claim C7 (amended): the rule notifies iff the snapshot is available, a
previously observed value exists and it differs from the current one; the
stored last-observed value is updated to the current value exactly on the
ticks where the snapshot is available, and is kept otherwise. -/
theorem wiz_edge_notification_semantics :
    ∀ (last : Option Bool) (avail : Bool) (cur : Option Bool),
      ((wizNotifyStep last avail cur).2 = true ↔
        avail = true ∧ last.isSome = true ∧ cur ≠ last) ∧
      (wizNotifyStep last avail cur).1 = (if avail then cur else last) := by
  intro last avail cur
  cases avail <;> simp [wizNotifyStep]

/-- Index 0 of a power run is the notification of the first tick. -/
theorem powerRun_head (last : Bool) (rs : List ℚ) :
    (powerRun last rs)[0]? =
      rs[0]?.map (fun p => decide (p > POWER_THRESHOLD) && !last) := by
  cases rs <;> simp [powerRun, powerNotifyStep]

/-- Index i+1 of a power run compares reading i+1 against the flag left by
reading i, whatever the initial flag was. -/
theorem powerRun_getElem_succ (rs : List ℚ) (last : Bool) (i : ℕ) :
    (powerRun last rs)[i + 1]? =
      match rs[i + 1]?, rs[i]? with
      | some a, some b =>
        some (decide (a > POWER_THRESHOLD) && !(decide (b > POWER_THRESHOLD)))
      | _, _ => none := by
  induction rs generalizing last i with
  | nil => simp [powerRun]
  | cons p rest ih =>
    cases i with
    | zero =>
      have := powerRun_head (powerNotifyStep last true p).1 rest
      simp only [powerRun, List.getElem?_cons_succ, List.getElem?_cons_zero]
      rw [this]
      cases hr : rest[0]? <;> simp [powerNotifyStep]
    | succ j =>
      simp only [powerRun, List.getElem?_cons_succ]
      exact ih (powerNotifyStep last true p).1 j

/-- Claim C8: starting from the initial false flag and a run of available
readings, the first tick notifies iff its reading is above the threshold,
a later tick notifies iff its reading is above the threshold and the
previous reading was not; the sequence 150,150,250,260,240,210 against
threshold 200 yields exactly one notification, at the 150 to 250
crossing. -/
theorem power_threshold_edge :
    (∀ (rs : List ℚ) (a : ℚ), rs[0]? = some a →
      ((powerRun false rs)[0]? = some true ↔ a > POWER_THRESHOLD)) ∧
    (∀ (rs : List ℚ) (i : ℕ) (a b : ℚ), rs[i + 1]? = some a →
      rs[i]? = some b →
      ((powerRun false rs)[i + 1]? = some true ↔
        a > POWER_THRESHOLD ∧ b ≤ POWER_THRESHOLD)) ∧
    powerRun false [150, 150, 250, 260, 240, 210] =
      [false, false, true, false, false, false] ∧
    (powerRun false [150, 150, 250, 260, 240, 210]).count true = 1 := by
  refine ⟨?_, ?_, ?_, ?_⟩
  · intro rs a ha
    rw [powerRun_head, ha]
    simp
  · intro rs i a b ha hb
    rw [powerRun_getElem_succ, ha, hb]
    simp [not_lt]
  · decide
  · decide

/-- Witness for C8 on the concrete reading sequence: the third tick is an
upward crossing and notifies, the fourth stays above and does not. -/
theorem power_threshold_edge_witness :
    ([(150 : ℚ), 150, 250, 260, 240, 210][2]? = some 250) ∧
    ([(150 : ℚ), 150, 250, 260, 240, 210][1]? = some 150) ∧
    ((powerRun false [150, 150, 250, 260, 240, 210])[2]? = some true ↔
      (250 : ℚ) > POWER_THRESHOLD ∧ (150 : ℚ) ≤ POWER_THRESHOLD) ∧
    ([(150 : ℚ), 150, 250, 260, 240, 210][0]? = some 150) ∧
    ((powerRun false [150, 150, 250, 260, 240, 210])[0]? = some true ↔
      (150 : ℚ) > POWER_THRESHOLD) :=
  ⟨by decide, by decide,
    power_threshold_edge.2.1 [150, 150, 250, 260, 240, 210] 1 250 150
      (by decide) (by decide),
    by decide,
    power_threshold_edge.1 [150, 150, 250, 260, 240, 210] 150 (by decide)⟩

end SmartTent
